import Mathlib

/-
Verification of the call-session logic of the videoCalling client
(src/script.js) against its design specification.

The script is a single-page PeerJS video-calling client.  Its state lives
in module-level globals (localStream, peer, currentCall, isAudioMuted,
isVideoOff, isScreenSharing, originalStream, reconnectAttempts) plus a few
DOM elements used as state (remoteVideo.srcObject, connectionStatus,
endCallBtn.disabled).  All behaviour is event-driven: user actions
(connectToPeer, endCall, toggleAudio, toggleVideo, toggleScreenShare),
PeerJS events (open, call, disconnected, error, and per-call stream, close,
error), and timers (the 30 s connection timeout, the 5 s health-check
interval, the 2 s reconnect delay, the 2 s stall re-dial delay, the 1 s
replace re-dial delay, the 10 s connectivity check).

The embedding below represents the globals as one state record.  Each JS
handler becomes a state-transformer; data read from external objects at
handler run time (current clock, ICE connectivity, whether peer.call
returned a connection, whether getDisplayMedia or replaceTrack succeeded)
is passed as an explicit argument.  Scheduled callbacks (setTimeout and
promise continuations) become pending tasks recorded in the state, each
paired with the delay in milliseconds it was scheduled with; delivering a
scheduled callback or a transport event is applying the corresponding
fire function.  Media streams keep only what the script inspects of them:
the enabled flags of their audio and video tracks.  Call objects are kept
in a heap list addressed by numeric identity, so that the aliasing between
the currentCall reference and the call object mutated by close() is
represented faithfully.
-/

namespace VideoCall

/-- A media stream as the script observes it: the enabled flag of each
audio track and of each video track, in order. -/
structure MediaStream where
  audioTracks : List Bool
  videoTracks : List Bool
deriving Repr, DecidableEq

/-- A PeerJS media connection object.  The script reads call.peer,
call.metadata.timestamp (absent for inbound and re-dial calls, which are
made without options) and closes calls with call.close(); sentStream
records which local stream was passed to peer.call / call.answer. -/
structure CallObj where
  id : Nat
  peer : String
  metaTimestamp : Option Nat
  sentStream : Option MediaStream
  closed : Bool
deriving Repr, DecidableEq

/-- A scheduled callback: setTimeout bodies and the replaceTrack promise
continuation, identified by their source location in the script. -/
inductive SchedTask where
  | connectRetry : SchedTask
  | reconnectTimer : SchedTask
  | stallRedial : String → SchedTask
  | replaceRedial : String → SchedTask
  | replacePromise : Nat → SchedTask
deriving Repr, DecidableEq

/-- The module-level globals of script.js plus the DOM cells it uses as
state, and the pending timers.  connTimeouts and intervals hold the armed
per-call connection timeout and health-check interval as
(call id, delay ms) pairs; tasks holds other scheduled callbacks with the
delay they were scheduled with; notes is the log of showNotification
calls as (message, type) pairs; peerGen counts Peer objects created, so a
fresh registration is visible as a generation bump. -/
structure AppState where
  localStream : Option MediaStream := none
  originalStream : Option MediaStream := none
  currentCall : Option Nat := none
  calls : List CallObj := []
  remoteVideoSrc : Option MediaStream := none
  isAudioMuted : Bool := false
  isVideoOff : Bool := false
  isScreenSharing : Bool := false
  reconnectAttempts : Nat := 0
  peerExists : Bool := false
  peerGen : Nat := 0
  peerId : Option String := none
  peerDisconnected : Bool := false
  navigatorOnLine : Bool := true
  endCallBtnDisabled : Bool := true
  statusText : String := ""
  statusCss : String := ""
  notes : List (String × String) := []
  tasks : List (SchedTask × Nat) := []
  connTimeouts : List (Nat × Nat) := []
  intervals : List (Nat × Nat) := []
  nextCallId : Nat := 0
deriving Repr, DecidableEq

/-- const MAX_RECONNECT_ATTEMPTS = 3 (script.js line 9). -/
def MAX_RECONNECT_ATTEMPTS : Nat := 3

/-- Connection-establishment timeout delay, setTimeout(..., 30000) at
line 285. -/
def CONNECTION_TIMEOUT_MS : Nat := 30000

/-- Health-check interval period, setInterval(..., 5000) at line 371. -/
def HEALTH_CHECK_PERIOD_MS : Nat := 5000

/-- Stall grace period compared against Date.now() - metadata.timestamp
at line 377. -/
def STALL_GRACE_MS : Nat := 10000

/-- Delay of the stall re-dial, setTimeout(..., 2000) at line 388. -/
def STALL_REDIAL_DELAY_MS : Nat := 2000

/-- Delay of the reconnect attempt after a signaling disconnect,
setTimeout(..., 2000) at line 154. -/
def RECONNECT_DELAY_MS : Nat := 2000

/-- Delay of the re-dial in replaceCallWithNewStream,
setTimeout(..., 1000) at line 541. -/
def REPLACE_REDIAL_DELAY_MS : Nat := 1000

/-- Period of the connectivity check, setInterval(checkConnectivity,
10000) at line 613. -/
def CONNECTIVITY_CHECK_PERIOD_MS : Nat := 10000

/-- Leading and trailing whitespace removal on a character list. -/
def trimChars (l : List Char) : List Char :=
  ((l.dropWhile Char.isWhitespace).reverse.dropWhile Char.isWhitespace).reverse

/-- peerIdInput.value.trim() (script.js line 220): structural rendering
of String.trim, which strips leading and trailing whitespace. -/
def strTrim (s : String) : String := String.mk (trimChars s.data)

/-- showNotification(message, type): appends to the notification log
(lines 25 to 33; the DOM display and its 5 s hide timer carry no state the
spec talks about beyond the emitted message). -/
def showNote (s : AppState) (msg ty : String) : AppState :=
  { s with notes := s.notes ++ [(msg, ty)] }

/-- clearTimeout / consuming a spent scheduled callback: remove one
matching entry from the pending tasks. -/
def eraseTask (s : AppState) (t : SchedTask × Nat) : AppState :=
  { s with tasks := s.tasks.erase t }

/-- call.close() on the call object with the given identity: marks it
closed in the heap. -/
def closeCallId (calls : List CallObj) (cid : Nat) : List CallObj :=
  calls.map (fun c => if c.id = cid then { c with closed := true } else c)

/-- Dereference a call identity in the heap. -/
def getCall (s : AppState) (cid : Nat) : Option CallObj :=
  s.calls.find? (fun c => c.id = cid)

/-- handleCallStream(call), state-arming part (lines 281 to 402): arms the
30 s connection timeout and the 5 s health-check interval for this call.
The event handlers it installs are the fire functions below. -/
def handleCallStream (s : AppState) (cid : Nat) : AppState :=
  { s with connTimeouts := s.connTimeouts ++ [(cid, CONNECTION_TIMEOUT_MS)],
           intervals := s.intervals ++ [(cid, HEALTH_CHECK_PERIOD_MS)] }

/-- initializePeerConnection (lines 90 to 216): destroys any existing peer
and creates a fresh Peer object; its id is assigned only when the open
event later fires. -/
def initPeer (s : AppState) : AppState :=
  { s with peerExists := true, peerGen := s.peerGen + 1,
           peerId := none, peerDisconnected := false }

/-- connectToPeer (lines 219 to 278).  now is Date.now() at the call
site (stored into call metadata at line 249); callOk tells whether
peer.call returned a connection (line 259 throws otherwise). -/
def connectToPeer (s : AppState) (input : String) (now : Nat) (callOk : Bool) :
    AppState :=
  let pid := strTrim input
  if pid = "" then showNote s "Please enter a valid Peer ID" "error"
  else
    let s1 := { s with statusText := "Connecting...",
                       statusCss := "status-connecting" }
    let s2 := match s1.currentCall with
      | some cid => { s1 with calls := closeCallId s1.calls cid }
      | none => s1
    if s2.peerExists = false ∨ s2.peerId = none then
      let s3 := initPeer s2
      { s3 with tasks := s3.tasks ++ [(SchedTask.connectRetry, 2000)] }
    else if callOk then
      let c : CallObj := { id := s2.nextCallId, peer := pid,
                           metaTimestamp := some now,
                           sentStream := s2.localStream, closed := false }
      let s3 := { s2 with calls := s2.calls ++ [c],
                          currentCall := some c.id,
                          nextCallId := s2.nextCallId + 1,
                          endCallBtnDisabled := false }
      handleCallStream s3 c.id
    else
      showNote { s2 with statusText := "Connection failed",
                         statusCss := "status-disconnected" }
        "Failed to connect: Failed to initiate call" "error"

/-- peer.on(call) handler (lines 130 to 145): answer with the local
stream, install as current call, enable the end button, then
handleCallStream.  mts is the metadata timestamp transmitted by the
caller, when present. -/
def onIncomingCall (s : AppState) (remotePeer : String) (mts : Option Nat) :
    AppState :=
  let s1 := showNote { s with statusText := "Incoming call...",
                              statusCss := "status-connecting" }
      "Incoming call" "info"
  let c : CallObj := { id := s1.nextCallId, peer := remotePeer,
                       metaTimestamp := mts,
                       sentStream := s1.localStream, closed := false }
  let s2 := { s1 with calls := s1.calls ++ [c],
                      currentCall := some c.id,
                      nextCallId := s1.nextCallId + 1,
                      endCallBtnDisabled := false }
  handleCallStream s2 c.id

/-- The stream handler enables the first track of a list if it is
disabled (lines 306 to 329 set track.enabled = true on the first track). -/
def setHeadTrue : List Bool → List Bool
  | [] => []
  | _ :: rest => true :: rest

/-- call.on(stream) handler (lines 296 to 342): clears the connection
timeout, attaches the remote stream to remoteVideo.srcObject after
force-enabling its first video and audio track, and reports Connected. -/
def onStream (s : AppState) (cid : Nat) (remoteStream : MediaStream) :
    AppState :=
  let s1 := { s with connTimeouts := s.connTimeouts.filter (fun e => e.1 ≠ cid) }
  let rs : MediaStream := { audioTracks := setHeadTrue remoteStream.audioTracks,
                            videoTracks := setHeadTrue remoteStream.videoTracks }
  showNote { s1 with remoteVideoSrc := some rs,
                     statusText := "Connected",
                     statusCss := "status-connected" }
    "Call connected successfully" "success"

/-- call.on(close) handler (lines 344 to 355): clears the connection
timeout, drops the remote stream, nulls currentCall, disables the end
button. -/
def onCallClose (s : AppState) (cid : Nat) : AppState :=
  let s1 := { s with connTimeouts := s.connTimeouts.filter (fun e => e.1 ≠ cid) }
  showNote { s1 with statusText := "Call ended",
                     statusCss := "status-disconnected",
                     remoteVideoSrc := none,
                     currentCall := none,
                     endCallBtnDisabled := true }
    "Call ended" "info"

/-- call.on(error) handler (lines 357 to 368). -/
def onCallError (s : AppState) (cid : Nat) : AppState :=
  let s1 := { s with connTimeouts := s.connTimeouts.filter (fun e => e.1 ≠ cid) }
  showNote { s1 with statusText := "Call error: Unknown error",
                     statusCss := "status-disconnected",
                     remoteVideoSrc := none,
                     currentCall := none,
                     endCallBtnDisabled := true }
    "Call error: Unknown error" "error"

/-- Expiry of the 30 s connection timeout (lines 285 to 294): the timer
is spent; if no remote stream is attached, report the timeout, close the
call and clear the current-call reference. -/
def connTimeoutFire (s : AppState) (cid : Nat) : AppState :=
  let s1 := { s with connTimeouts := s.connTimeouts.filter (fun e => e.1 ≠ cid) }
  if s1.remoteVideoSrc = none then
    let s2 := showNote { s1 with statusText := "Connection timed out",
                                 statusCss := "status-disconnected" }
        "Connection timed out. The other user may not be available." "error"
    { s2 with calls := closeCallId s2.calls cid,
              currentCall := none,
              endCallBtnDisabled := true }
  else s1

/-- One tick of the health-check interval (lines 371 to 401).  now is
Date.now(); hasPC and iceFailed report whether call.peerConnection exists
and whether its iceConnectionState is failed, read from the transport at
tick time.  If the current call is no longer this call, the interval
clears itself.  Otherwise, when no remote stream is attached and more
than 10 s have passed since the metadata timestamp (absent metadata never
satisfies this, as NaN comparisons are false) and the ICE connection has
failed: notify, close the call, schedule the 2 s re-dial to the same
remote, and clear the interval. -/
def intervalTick (s : AppState) (cid : Nat) (now : Nat)
    (hasPC iceFailed : Bool) : AppState :=
  if s.currentCall ≠ some cid then
    { s with intervals := s.intervals.filter (fun e => e.1 ≠ cid) }
  else
    let elapsedOk : Bool := match getCall s cid with
      | some c => match c.metaTimestamp with
        | some ts => decide (now - ts > STALL_GRACE_MS)
        | none => false
      | none => false
    if s.remoteVideoSrc = none ∧ elapsedOk = true then
      if hasPC && iceFailed then
        let pid := match getCall s cid with
          | some c => c.peer
          | none => ""
        let s1 := showNote s
            "Connection problem detected. Trying to reconnect..." "error"
        { s1 with calls := closeCallId s1.calls cid,
                  tasks := s1.tasks ++
                    [(SchedTask.stallRedial pid, STALL_REDIAL_DELAY_MS)],
                  intervals := s1.intervals.filter (fun e => e.1 ≠ cid) }
      else s
    else s

/-- The stall re-dial callback (lines 388 to 396): if the peer is ready,
call the remote again with the current local stream (no options, so no
metadata) and install the new call as current. -/
def fireStallRedial (s : AppState) (pid : String) (callOk : Bool) : AppState :=
  let s1 := eraseTask s (SchedTask.stallRedial pid, STALL_REDIAL_DELAY_MS)
  if s1.peerExists && s1.peerId.isSome then
    if callOk then
      let c : CallObj := { id := s1.nextCallId, peer := pid,
                           metaTimestamp := none,
                           sentStream := s1.localStream, closed := false }
      let s2 := { s1 with calls := s1.calls ++ [c],
                          currentCall := some c.id,
                          nextCallId := s1.nextCallId + 1 }
      handleCallStream s2 c.id
    else s1
  else s1

/-- endCall (lines 561 to 581): if a call is current, close it, null the
reference, drop the remote stream, disable the end button. -/
def endCall (s : AppState) : AppState :=
  match s.currentCall with
  | some cid =>
    showNote { s with calls := closeCallId s.calls cid,
                      currentCall := none,
                      remoteVideoSrc := none,
                      statusText := "Call ended",
                      statusCss := "status-disconnected",
                      endCallBtnDisabled := true }
      "Call ended" "info"
  | none => s

/-- peer.on(open) handler (lines 118 to 127): records the assigned
identity and resets the reconnect counter. -/
def onPeerOpen (s : AppState) (pid : String) : AppState :=
  { s with peerId := some pid,
           statusText := "Ready to connect",
           statusCss := "",
           reconnectAttempts := 0 }

/-- peer.on(disconnected) handler (lines 148 to 164): reports the loss
and schedules the reconnect decision after 2 s. -/
def onPeerDisconnected (s : AppState) : AppState :=
  { s with statusText := "Connection lost. Attempting to reconnect...",
           statusCss := "status-disconnected",
           tasks := s.tasks ++ [(SchedTask.reconnectTimer, RECONNECT_DELAY_MS)] }

/-- The delayed reconnect decision (lines 154 to 163).  Returns the new
state and whether peer.reconnect() was invoked. -/
def fireReconnectTimer (s : AppState) : AppState × Bool :=
  let s1 := eraseTask s (SchedTask.reconnectTimer, RECONNECT_DELAY_MS)
  if s1.reconnectAttempts < MAX_RECONNECT_ATTEMPTS then
    ({ s1 with reconnectAttempts := s1.reconnectAttempts + 1 }, true)
  else
    (showNote { s1 with statusText :=
        "Could not reconnect after multiple attempts. Please refresh the page." }
      "Connection failed. Please refresh the page." "error", false)

/-- toggleAudio (lines 405 to 422): flips isAudioMuted and drives the
first audio track enabled flag from the new value; with no audio track,
only notifies. -/
def toggleAudio (s : AppState) : AppState :=
  match s.localStream with
  | none => s
  | some ls =>
    match ls.audioTracks with
    | [] => showNote s "No audio track found" "error"
    | _ :: rest =>
      let m := !s.isAudioMuted
      let ls2 : MediaStream := { ls with audioTracks := (!m) :: rest }
      showNote { s with isAudioMuted := m, localStream := some ls2 }
        (if m then "Audio muted" else "Audio unmuted") "info"

/-- toggleVideo (lines 425 to 442): flips isVideoOff and drives the first
video track enabled flag from the new value; with no video track, only
notifies. -/
def toggleVideo (s : AppState) : AppState :=
  match s.localStream with
  | none => s
  | some ls =>
    match ls.videoTracks with
    | [] => showNote s "No video track found" "error"
    | _ :: rest =>
      let v := !s.isVideoOff
      let ls2 : MediaStream := { ls with videoTracks := (!v) :: rest }
      showNote { s with isVideoOff := v, localStream := some ls2 }
        (if v then "Video stopped" else "Video started") "info"

/-- replaceCallWithNewStream (lines 536 to 557), synchronous part: close
the current call and schedule the 1 s re-dial to its remote. -/
def replaceCallWithNewStream (s : AppState) : AppState :=
  match s.currentCall with
  | some cid =>
    let pid := match getCall s cid with
      | some c => c.peer
      | none => ""
    { s with calls := closeCallId s.calls cid,
             tasks := s.tasks ++
               [(SchedTask.replaceRedial pid, REPLACE_REDIAL_DELAY_MS)] }
  | none => s

/-- The re-dial callback of replaceCallWithNewStream (lines 541 to 556):
call the remote with the current local stream and install the new call;
if peer.call yields nothing, report the failure. -/
def fireReplaceRedial (s : AppState) (pid : String) (callOk : Bool) : AppState :=
  let s1 := eraseTask s (SchedTask.replaceRedial pid, REPLACE_REDIAL_DELAY_MS)
  if callOk then
    let c : CallObj := { id := s1.nextCallId, peer := pid,
                         metaTimestamp := none,
                         sentStream := s1.localStream, closed := false }
    let s2 := { s1 with calls := s1.calls ++ [c],
                        currentCall := some c.id,
                        nextCallId := s1.nextCallId + 1 }
    handleCallStream s2 c.id
  else
    showNote { s1 with statusText := "Failed to update call with screen share",
                       statusCss := "status-disconnected" }
      "Failed to update call. Please reconnect." "error"

/-- Audio grafting in toggleScreenShare (lines 465 to 470): add the first
audio track of the original stream, when present, to the screen stream. -/
def graftAudio (screen : MediaStream) (orig : Option MediaStream) : MediaStream :=
  match orig with
  | some os =>
    match os.audioTracks.head? with
    | some a => { screen with audioTracks := screen.audioTracks ++ [a] }
    | none => screen
  | none => screen

/-- toggleScreenShare, media-switch phase (lines 447 to 485): when
sharing, switch back to the original stream; otherwise acquire the screen
stream (none models a getDisplayMedia rejection, which throws to the
outer catch) and graft the camera audio onto it. -/
def screenSwitchPhase (s : AppState) (screenRes : Option MediaStream) :
    Option AppState :=
  if s.isScreenSharing then
    some (showNote { s with localStream := s.originalStream }
      "Screen sharing stopped" "info")
  else
    match screenRes with
    | none => none
    | some screen =>
      let screen2 := graftAudio screen s.originalStream
      some (showNote { s with localStream := some screen2 }
        "Screen sharing started" "success")

/-- toggleScreenShare, call-update phase and flag flip (lines 488 to
528).  senderSupported models peerConnection.getSenders being available;
videoSenderExists models finding a sender with a live video track.  When
a video sender and a new local video track both exist, replaceTrack is
started (its continuation is scheduled) and the function returns before
the flag flip; every other path falls through to the flip, re-dialing
when required. -/
def callUpdatePhase (s : AppState) (senderSupported videoSenderExists : Bool) :
    AppState :=
  match s.currentCall with
  | some cid =>
    if senderSupported then
      if videoSenderExists then
        match s.localStream with
        | some ls =>
          match ls.videoTracks.head? with
          | some _ =>
            { s with tasks := s.tasks ++ [(SchedTask.replacePromise cid, 0)] }
          | none =>
            let s1 := replaceCallWithNewStream s
            { s1 with isScreenSharing := !s1.isScreenSharing }
        | none =>
          let s1 := showNote s "Failed to update call with screen sharing" "error"
          { s1 with isScreenSharing := !s1.isScreenSharing }
      else
        let s1 := replaceCallWithNewStream s
        { s1 with isScreenSharing := !s1.isScreenSharing }
    else
      let s1 := replaceCallWithNewStream s
      { s1 with isScreenSharing := !s1.isScreenSharing }
  | none => { s with isScreenSharing := !s.isScreenSharing }

/-- toggleScreenShare (lines 445 to 558): media switch, then call update;
a getDisplayMedia rejection reaches the outer catch and skips both the
call update and the flag flip. -/
def toggleScreenShare (s : AppState) (screenRes : Option MediaStream)
    (senderSupported videoSenderExists : Bool) : AppState :=
  match screenSwitchPhase s screenRes with
  | none => showNote s "Screen sharing error: Screen sharing permission denied" "error"
  | some s1 => callUpdatePhase s1 senderSupported videoSenderExists

/-- The replaceTrack promise continuation (lines 503 to 511): on success
only a notification; on failure, fall back to replaceCallWithNewStream,
acting on whatever call is current at that time. -/
def fireReplacePromise (s : AppState) (cid : Nat) (success : Bool) : AppState :=
  let s1 := eraseTask s (SchedTask.replacePromise cid, 0)
  if success then showNote s1 "Media updated successfully" "success"
  else replaceCallWithNewStream s1

/-- checkConnectivity (lines 594 to 610): offline only reports; a healthy
registration (exists, not disconnected, has an id) returns true with no
change; otherwise the peer is re-initialized.  Returns the new state and
the boolean result. -/
def checkConnectivity (s : AppState) : AppState × Bool :=
  if s.navigatorOnLine = false then
    let msg := "You are offline. Please check your internet connection."
    (showNote { s with statusText := msg, statusCss := "status-disconnected" }
      "Internet connection lost" "error", false)
  else if s.peerExists && !s.peerDisconnected && s.peerId.isSome then
    (s, true)
  else
    (initPeer s, false)

/-- The user actions claim C1 quantifies over: dialing (connectToPeer
with its external inputs) and hanging up (endCall). -/
inductive UserAction where
  | dial : String → Nat → Bool → UserAction
  | hangup : UserAction
deriving Repr, DecidableEq

/-- Dispatch one user action. -/
def stepUA (s : AppState) : UserAction → AppState
  | UserAction.dial input now callOk => connectToPeer s input now callOk
  | UserAction.hangup => endCall s

/-- Run a sequence of user actions. -/
def runUA (s : AppState) (acts : List UserAction) : AppState :=
  acts.foldl stepUA s

/-- The non-terminal (not yet closed) call sessions in the heap. -/
def openSessions (s : AppState) : List CallObj :=
  s.calls.filter (fun c => !c.closed)

/-- Single-session invariant over the call heap and the current-call
reference: at most one non-terminal session, and every non-terminal
session is the one the current-call reference designates. -/
def SessionInvOn (calls : List CallObj) (cur : Option Nat) : Prop :=
  (calls.filter (fun c => !c.closed)).length ≤ 1 ∧
    ∀ c ∈ calls, c.closed = false → cur = some c.id

/-- Single-session invariant of a state. -/
def SessionInv (s : AppState) : Prop :=
  SessionInvOn s.calls s.currentCall

instance (calls : List CallObj) (cur : Option Nat) :
    Decidable (SessionInvOn calls cur) := by
  unfold SessionInvOn; infer_instance

instance (s : AppState) : Decidable (SessionInv s) := by
  unfold SessionInv; infer_instance

/-- A post-registration state: media acquired, peer registered. -/
def readyState : AppState :=
  { localStream := some { audioTracks := [true], videoTracks := [true] },
    originalStream := some { audioTracks := [true], videoTracks := [true] },
    peerExists := true, peerGen := 1, peerId := some "me",
    statusText := "Ready to connect" }

/-
Helper lemmas about the call heap.
-/

lemma mem_closeCallId {calls : List CallObj} {cid : Nat} {c : CallObj}
    (hc : c ∈ closeCallId calls cid) :
    ∃ c0 ∈ calls, c = if c0.id = cid then { c0 with closed := true } else c0 := by
  unfold closeCallId at hc
  rcases List.mem_map.mp hc with ⟨c0, hc0, hrw⟩
  exact ⟨c0, hc0, hrw.symm⟩

lemma closeCallId_closes (calls : List CallObj) (cid : Nat) :
    ∀ c ∈ closeCallId calls cid, c.id = cid → c.closed = true := by
  intro c hc hid
  rcases mem_closeCallId hc with ⟨c0, _, hceq⟩
  subst hceq
  by_cases h0 : c0.id = cid
  · simp [h0]
  · simp only [h0, if_false] at hid ⊢

lemma closeCallId_all_closed {calls : List CallObj} {cid : Nat}
    (h : ∀ c ∈ calls, c.closed = false → c.id = cid) :
    ∀ c ∈ closeCallId calls cid, c.closed = true := by
  intro c hc
  rcases mem_closeCallId hc with ⟨c0, hc0, hceq⟩
  subst hceq
  by_cases h0 : c0.id = cid
  · simp [h0]
  · simp only [h0, if_false]
    cases hcb : c0.closed with
    | true => rfl
    | false => exact absurd (h c0 hc0 hcb) h0

lemma filter_open_nil {calls : List CallObj}
    (h : ∀ c ∈ calls, c.closed = true) :
    calls.filter (fun c => !c.closed) = [] := by
  apply List.filter_eq_nil_iff.mpr
  intro c hc
  simp [h c hc]

lemma sessionInvOn_of_all_closed {calls : List CallObj} {cur : Option Nat}
    (h : ∀ c ∈ calls, c.closed = true) : SessionInvOn calls cur := by
  constructor
  · simp [filter_open_nil h]
  · intro c hc hcl
    rw [h c hc] at hcl
    exact Bool.noConfusion hcl

lemma sessionInvOn_append_new {calls : List CallObj} {newc : CallObj}
    (h : ∀ c ∈ calls, c.closed = true) (hnew : newc.closed = false) :
    SessionInvOn (calls ++ [newc]) (some newc.id) := by
  constructor
  · rw [List.filter_append, filter_open_nil h]
    simp [hnew]
  · intro c hc hcl
    rcases List.mem_append.mp hc with hin | hin
    · rw [h c hin] at hcl
      exact Bool.noConfusion hcl
    · have hc1 := List.mem_singleton.mp hin
      subst hc1
      rfl

lemma connectToPeer_inv (s : AppState) (input : String) (now : Nat)
    (callOk : Bool) (h : SessionInv s) :
    SessionInv (connectToPeer s input now callOk) := by
  unfold connectToPeer
  by_cases hpid : strTrim input = ""
  · simpa [hpid, showNote, SessionInv, SessionInvOn] using h
  · rw [if_neg hpid]
    cases hcur : s.currentCall with
    | some cid =>
      have hall : ∀ c ∈ closeCallId s.calls cid, c.closed = true := by
        apply closeCallId_all_closed
        intro c hc hcl
        have h2 := h.2 c hc hcl
        rw [hcur] at h2
        exact (Option.some.inj h2).symm
      simp only [hcur]
      by_cases hready : s.peerExists = false ∨ s.peerId = none
      · rw [if_pos hready]
        exact sessionInvOn_of_all_closed hall
      · rw [if_neg hready]
        cases callOk with
        | true =>
          simp only [if_true]
          exact sessionInvOn_append_new hall rfl
        | false =>
          simp only [Bool.false_eq_true, if_false, showNote]
          exact sessionInvOn_of_all_closed hall
    | none =>
      have hall : ∀ c ∈ s.calls, c.closed = true := by
        intro c hc
        cases hcb : c.closed with
        | true => rfl
        | false =>
          have h2 := h.2 c hc hcb
          rw [hcur] at h2
          exact Option.noConfusion h2
      simp only [hcur]
      by_cases hready : s.peerExists = false ∨ s.peerId = none
      · rw [if_pos hready]
        exact sessionInvOn_of_all_closed hall
      · rw [if_neg hready]
        cases callOk with
        | true =>
          simp only [if_true]
          exact sessionInvOn_append_new hall rfl
        | false =>
          simp only [Bool.false_eq_true, if_false, showNote]
          exact sessionInvOn_of_all_closed hall

lemma endCall_inv (s : AppState) (h : SessionInv s) : SessionInv (endCall s) := by
  unfold endCall
  cases hcur : s.currentCall with
  | none => simpa [hcur] using h
  | some cid =>
    simp only [hcur, showNote]
    apply sessionInvOn_of_all_closed
    apply closeCallId_all_closed
    intro c hc hcl
    have h2 := h.2 c hc hcl
    rw [hcur] at h2
    exact (Option.some.inj h2).symm

lemma runUA_preserves_inv (s : AppState) (acts : List UserAction)
    (h : SessionInv s) : SessionInv (runUA s acts) := by
  induction acts generalizing s with
  | nil => exact h
  | cons a rest ih =>
    have hs : SessionInv (stepUA s a) := by
      cases a with
      | dial input now callOk => exact connectToPeer_inv s input now callOk h
      | hangup => exact endCall_inv s h
    simpa [runUA, List.foldl_cons] using ih (stepUA s a) hs

lemma connectToPeer_closes_current (s2 : AppState) (input : String)
    (now : Nat) (ok : Bool) (cid : Nat) (hcur : s2.currentCall = some cid)
    (hpid : strTrim input ≠ "") :
    ∃ rest, (connectToPeer s2 input now ok).calls
      = closeCallId s2.calls cid ++ rest := by
  unfold connectToPeer
  rw [if_neg hpid]
  simp only [hcur]
  by_cases hready : s2.peerExists = false ∨ s2.peerId = none
  · rw [if_pos hready]
    exact ⟨[], by simp [initPeer]⟩
  · rw [if_neg hready]
    cases ok with
    | true =>
      simp only [if_true]
      refine ⟨[{ id := s2.nextCallId, peer := strTrim input,
                 metaTimestamp := some now, sentStream := s2.localStream,
                 closed := false }], ?_⟩
      simp [handleCallStream]
    | false =>
      simp only [Bool.false_eq_true, if_false, showNote]
      exact ⟨[], by simp⟩

/-- C1: for every sequence of dial (connectToPeer) and close (endCall)
actions from a state satisfying the single-session invariant, at most one
non-terminal call session exists at any instant, and every non-terminal
session is the one the process-wide current-call reference designates;
moreover a dial issued while a session is current closes that session in
the heap before any replacement is appended, so the reference never
refers to two live sessions. -/
theorem dial_close_single_session (s : AppState) (acts : List UserAction)
    (h : SessionInv s) :
    ((openSessions (runUA s acts)).length ≤ 1 ∧
     ∀ c ∈ (runUA s acts).calls, c.closed = false →
       (runUA s acts).currentCall = some c.id) ∧
    (∀ (s2 : AppState) (input : String) (now2 : Nat) (ok : Bool) (cid : Nat),
       s2.currentCall = some cid → strTrim input ≠ "" →
       ∃ rest, (connectToPeer s2 input now2 ok).calls
         = closeCallId s2.calls cid ++ rest) := by
  have hinv := runUA_preserves_inv s acts h
  exact ⟨⟨hinv.1, hinv.2⟩,
    fun s2 input now2 ok cid hcur hpid =>
      connectToPeer_closes_current s2 input now2 ok cid hcur hpid⟩

/-- C1 witness: a run with two dials (the second while the first session
is live), a hang-up and a third dial, from the ready state. -/
theorem dial_close_single_session_witness :
    SessionInv readyState ∧
    ((openSessions (runUA readyState
        [UserAction.dial "abc123" 5 true, UserAction.dial "other9" 6 true,
         UserAction.hangup, UserAction.dial "third7" 7 true])).length ≤ 1 ∧
     ∀ c ∈ (runUA readyState
        [UserAction.dial "abc123" 5 true, UserAction.dial "other9" 6 true,
         UserAction.hangup, UserAction.dial "third7" 7 true]).calls,
       c.closed = false →
       (runUA readyState
        [UserAction.dial "abc123" 5 true, UserAction.dial "other9" 6 true,
         UserAction.hangup, UserAction.dial "third7" 7 true]).currentCall
         = some c.id) :=
  ⟨by decide, (dial_close_single_session readyState _ (by decide)).1⟩

/-
Reconnection policy (claim C4).
-/

/-- One disconnect cycle: the disconnected event fires and its delayed
reconnect decision then runs (and fails again, i.e. no open event
intervenes).  Yields the new state and whether peer.reconnect() was
invoked. -/
def disconnectCycle (s : AppState) : AppState × Bool :=
  fireReconnectTimer (onPeerDisconnected s)

/-- n consecutive disconnect cycles. -/
def disconnectCycles : Nat → AppState → AppState
  | 0, s => s
  | n + 1, s => disconnectCycles n (disconnectCycle s).1

lemma disconnectCycle_attempts (s : AppState) :
    (disconnectCycle s).1.reconnectAttempts =
      if s.reconnectAttempts < MAX_RECONNECT_ATTEMPTS then
        s.reconnectAttempts + 1
      else s.reconnectAttempts := by
  by_cases hlt : s.reconnectAttempts < MAX_RECONNECT_ATTEMPTS
  · simp [disconnectCycle, fireReconnectTimer, onPeerDisconnected, eraseTask,
      showNote, hlt]
  · simp [disconnectCycle, fireReconnectTimer, onPeerDisconnected, eraseTask,
      showNote, hlt]

lemma disconnectCycle_invoked (s : AppState) :
    (disconnectCycle s).2
      = decide (s.reconnectAttempts < MAX_RECONNECT_ATTEMPTS) := by
  by_cases hlt : s.reconnectAttempts < MAX_RECONNECT_ATTEMPTS
  · simp [disconnectCycle, fireReconnectTimer, onPeerDisconnected, eraseTask,
      showNote, hlt]
  · simp [disconnectCycle, fireReconnectTimer, onPeerDisconnected, eraseTask,
      showNote, hlt]

lemma disconnectCycles_attempts (n : Nat) (s : AppState)
    (h : s.reconnectAttempts ≤ MAX_RECONNECT_ATTEMPTS) :
    (disconnectCycles n s).reconnectAttempts
      = min (s.reconnectAttempts + n) MAX_RECONNECT_ATTEMPTS := by
  induction n generalizing s with
  | zero =>
    simp only [disconnectCycles, Nat.add_zero]
    exact (Nat.min_eq_left h).symm
  | succ n ih =>
    simp only [disconnectCycles]
    rw [ih]
    · rw [disconnectCycle_attempts]
      unfold MAX_RECONNECT_ATTEMPTS at *
      split <;> omega
    · rw [disconnectCycle_attempts]
      unfold MAX_RECONNECT_ATTEMPTS at *
      split <;> omega

/-- C4: reconnection after a signaling disconnect is bounded.  The
disconnected handler schedules its decision after the fixed 2000 ms
delay; the decision invokes peer.reconnect() exactly when the counter is
below MAX_RECONNECT_ATTEMPTS = 3, incrementing it; so starting from a
fresh counter the counter after n consecutive failed cycles is min n 3,
the cycle after the third one never invokes reconnect, and the counter
resets to 0 on the successful-registration open event. -/
theorem reconnect_attempts_bounded (s : AppState)
    (h : s.reconnectAttempts = 0) :
    (RECONNECT_DELAY_MS = 2000 ∧ MAX_RECONNECT_ATTEMPTS = 3) ∧
    (∀ s0 : AppState, (onPeerDisconnected s0).tasks
       = s0.tasks ++ [(SchedTask.reconnectTimer, RECONNECT_DELAY_MS)]) ∧
    (∀ n, (disconnectCycles n s).reconnectAttempts
       = min n MAX_RECONNECT_ATTEMPTS) ∧
    (∀ n, ((disconnectCycle (disconnectCycles n s)).2 = true
       ↔ n < MAX_RECONNECT_ATTEMPTS)) ∧
    (∀ (s0 : AppState) (pid : String),
       (onPeerOpen s0 pid).reconnectAttempts = 0) := by
  refine ⟨⟨rfl, rfl⟩, fun s0 => rfl, ?_, ?_, fun s0 pid => rfl⟩
  · intro n
    have := disconnectCycles_attempts n s (by rw [h]; decide)
    rw [h] at this
    simpa using this
  · intro n
    rw [disconnectCycle_invoked]
    have := disconnectCycles_attempts n s (by rw [h]; decide)
    rw [h, Nat.zero_add] at this
    rw [this]
    unfold MAX_RECONNECT_ATTEMPTS
    constructor
    · intro hd
      have := of_decide_eq_true hd
      omega
    · intro hn
      apply decide_eq_true
      omega

/-- C4 witness: from the ready state, after three failed disconnect
cycles the counter is saturated at 3 and a fourth cycle does not invoke
peer.reconnect(). -/
theorem reconnect_attempts_bounded_witness :
    readyState.reconnectAttempts = 0 ∧
    (disconnectCycles 3 readyState).reconnectAttempts
      = min 3 MAX_RECONNECT_ATTEMPTS ∧
    ((disconnectCycle (disconnectCycles 3 readyState)).2 = true
      ↔ 3 < MAX_RECONNECT_ATTEMPTS) :=
  ⟨rfl, (reconnect_attempts_bounded readyState rfl).2.2.1 3,
    (reconnect_attempts_bounded readyState rfl).2.2.2.1 3⟩

/-- C6: every dialing or pending session (outbound via handleCallStream
after connectToPeer, inbound via onIncomingCall) arms a 30000 ms
connection-establishment timeout; the stream handler cancels the timeout
and reports Connected; if the timeout fires with no remote stream
attached, the session is closed (call closed, current-call reference
cleared, end button disabled) with the timed-out status. -/
theorem connection_establishment_timeout :
    CONNECTION_TIMEOUT_MS = 30000 ∧
    (∀ (s0 : AppState) (cid0 : Nat), (handleCallStream s0 cid0).connTimeouts
       = s0.connTimeouts ++ [(cid0, CONNECTION_TIMEOUT_MS)]) ∧
    (∀ (s0 : AppState) (rp : String) (mts : Option Nat),
       (onIncomingCall s0 rp mts).connTimeouts
         = s0.connTimeouts ++ [(s0.nextCallId, CONNECTION_TIMEOUT_MS)]) ∧
    (∀ (s : AppState) (cid : Nat) (rs : MediaStream),
       (onStream s cid rs).connTimeouts
         = s.connTimeouts.filter (fun e => e.1 ≠ cid) ∧
       (onStream s cid rs).statusText = "Connected" ∧
       (onStream s cid rs).statusCss = "status-connected" ∧
       (onStream s cid rs).remoteVideoSrc
         = some { audioTracks := setHeadTrue rs.audioTracks,
                  videoTracks := setHeadTrue rs.videoTracks } ∧
       (onStream s cid rs).currentCall = s.currentCall) ∧
    (∀ (s : AppState) (cid : Nat), s.remoteVideoSrc = none →
       (connTimeoutFire s cid).currentCall = none ∧
       (connTimeoutFire s cid).calls = closeCallId s.calls cid ∧
       (connTimeoutFire s cid).statusText = "Connection timed out" ∧
       (connTimeoutFire s cid).endCallBtnDisabled = true) := by
  refine ⟨rfl, fun s0 cid0 => rfl, fun s0 rp mts => ?_, fun s cid rs => ?_, ?_⟩
  · simp [onIncomingCall, handleCallStream, showNote]
  · refine ⟨?_, ?_, ?_, ?_, ?_⟩ <;> simp [onStream, showNote]
  · intro s cid hrv
    refine ⟨?_, ?_, ?_, ?_⟩ <;> simp [connTimeoutFire, showNote, hrv]

/-- C6 witness scenario: an outbound dial from the ready state. -/
def c6Dialed : AppState := connectToPeer readyState "peersix" 5 true

/-- C6 witness: the timeout fires on the freshly dialed session with no
remote stream, closing it. -/
theorem connection_establishment_timeout_witness :
    c6Dialed.remoteVideoSrc = none ∧
    (connTimeoutFire c6Dialed 0).currentCall = none ∧
    (connTimeoutFire c6Dialed 0).statusText = "Connection timed out" :=
  ⟨by decide,
    (connection_establishment_timeout.2.2.2.2 c6Dialed 0 (by decide)).1,
    (connection_establishment_timeout.2.2.2.2 c6Dialed 0 (by decide)).2.2.1⟩

/-- C5: with a current call whose dial metadata timestamp is more than
10000 ms in the past, no remote stream, and the transport reporting a
failed ICE connection, a health-check tick (from the interval armed with
period 5000 ms by handleCallStream) closes the session, schedules exactly
one re-dial to the same remote after 2000 ms, and stops the interval; the
fired re-dial installs a fresh call object (new identity, no metadata)
to the same remote carrying the current local stream. -/
theorem health_check_stall_redial (s : AppState) (cid : Nat) (c : CallObj)
    (now ts : Nat)
    (hcur : s.currentCall = some cid)
    (hget : getCall s cid = some c)
    (hts : c.metaTimestamp = some ts)
    (helapsed : now - ts > STALL_GRACE_MS)
    (hrv : s.remoteVideoSrc = none)
    (hready : s.peerExists = true)
    (hpid : s.peerId.isSome = true)
    (hfresh : cid < s.nextCallId) :
    (HEALTH_CHECK_PERIOD_MS = 5000 ∧ STALL_GRACE_MS = 10000 ∧
     STALL_REDIAL_DELAY_MS = 2000) ∧
    (∀ (s0 : AppState) (cid0 : Nat), (handleCallStream s0 cid0).intervals
       = s0.intervals ++ [(cid0, HEALTH_CHECK_PERIOD_MS)]) ∧
    (∀ c2 ∈ (intervalTick s cid now true true).calls,
       c2.id = cid → c2.closed = true) ∧
    (intervalTick s cid now true true).tasks
      = s.tasks ++ [(SchedTask.stallRedial c.peer, STALL_REDIAL_DELAY_MS)] ∧
    (intervalTick s cid now true true).intervals
      = s.intervals.filter (fun e => e.1 ≠ cid) ∧
    (fireStallRedial (intervalTick s cid now true true) c.peer true).currentCall
      = some s.nextCallId ∧
    s.nextCallId ≠ cid ∧
    (fireStallRedial (intervalTick s cid now true true) c.peer true).calls
      = closeCallId s.calls cid
        ++ [{ id := s.nextCallId, peer := c.peer, metaTimestamp := none,
              sentStream := s.localStream, closed := false }] := by
  have hd : decide (now - ts > STALL_GRACE_MS) = true := decide_eq_true helapsed
  have htick : intervalTick s cid now true true
      = { s with
          notes := s.notes ++
            [("Connection problem detected. Trying to reconnect...", "error")],
          calls := closeCallId s.calls cid,
          tasks := s.tasks ++
            [(SchedTask.stallRedial c.peer, STALL_REDIAL_DELAY_MS)],
          intervals := s.intervals.filter (fun e => e.1 ≠ cid) } := by
    simp [intervalTick, hcur, hget, hts, hd, hrv, showNote]
  refine ⟨⟨rfl, rfl, rfl⟩, fun s0 cid0 => rfl, ?_, ?_, ?_, ?_, ?_, ?_⟩
  · rw [htick]
    exact closeCallId_closes s.calls cid
  · rw [htick]
  · rw [htick]
  · rw [htick]
    simp [fireStallRedial, eraseTask, handleCallStream, hready, hpid]
  · omega
  · rw [htick]
    simp [fireStallRedial, eraseTask, handleCallStream, hready, hpid]

/-- C5 witness scenario: an outbound dial from the ready state. -/
def c5Dialed : AppState := connectToPeer readyState "remotefive" 5 true

/-- C5 witness scenario: the call object created by that dial. -/
def c5Call : CallObj :=
  { id := 0, peer := "remotefive", metaTimestamp := some 5,
    sentStream := some { audioTracks := [true], videoTracks := [true] },
    closed := false }

/-- C5 witness: a stall tick at t = 20000 on the dialed session, followed
by the scheduled re-dial, installs a fresh call. -/
theorem health_check_stall_redial_witness :
    c5Dialed.currentCall = some 0 ∧
    getCall c5Dialed 0 = some c5Call ∧
    (fireStallRedial (intervalTick c5Dialed 0 20000 true true)
        c5Call.peer true).currentCall = some c5Dialed.nextCallId :=
  ⟨by decide, by decide,
    (health_check_stall_redial c5Dialed 0 c5Call 20000 5 (by decide) (by decide)
      (by decide) (by decide) (by decide) (by decide) (by decide)
      (by decide)).2.2.2.2.2.1⟩

/-- C7: switching the media source while a call is current does not touch
the negotiation handle when in-place replacement is available (supported
transport, video sender and new video track present): the call-update
phase only schedules the replaceTrack continuation, leaving the current
call and the heap unchanged, and the successful continuation changes
neither.  Only when replacement is unsupported (or the started
replacement fails) is the current handle closed and exactly one re-dial
to the same remote scheduled (after 1000 ms); the fired re-dial installs
a fresh call to that remote carrying the current local stream as its
sent content, and a subsequent remote-stream event reports Connected
again. -/
theorem source_switch_preserves_handle :
    (∀ (s : AppState) (cid : Nat) (ls : MediaStream) (tr : Bool),
       s.currentCall = some cid → s.localStream = some ls →
       ls.videoTracks.head? = some tr →
       callUpdatePhase s true true
         = { s with tasks := s.tasks ++ [(SchedTask.replacePromise cid, 0)] }) ∧
    (∀ (s : AppState) (cid : Nat),
       (fireReplacePromise s cid true).currentCall = s.currentCall ∧
       (fireReplacePromise s cid true).calls = s.calls) ∧
    (∀ (s : AppState) (cid cid2 : Nat) (c2 : CallObj),
       s.currentCall = some cid2 → getCall s cid2 = some c2 →
       (fireReplacePromise s cid false).calls = closeCallId s.calls cid2 ∧
       (fireReplacePromise s cid false).tasks
         = (s.tasks.erase (SchedTask.replacePromise cid, 0))
             ++ [(SchedTask.replaceRedial c2.peer, REPLACE_REDIAL_DELAY_MS)]) ∧
    (∀ (s : AppState) (cid : Nat) (c : CallObj) (sup se : Bool),
       s.currentCall = some cid → getCall s cid = some c →
       (sup = false ∨ se = false) →
       (callUpdatePhase s sup se).calls = closeCallId s.calls cid ∧
       (callUpdatePhase s sup se).tasks
         = s.tasks
             ++ [(SchedTask.replaceRedial c.peer, REPLACE_REDIAL_DELAY_MS)]) ∧
    REPLACE_REDIAL_DELAY_MS = 1000 ∧
    (∀ (s : AppState) (pid : String),
       (fireReplaceRedial s pid true).currentCall = some s.nextCallId ∧
       (fireReplaceRedial s pid true).calls
         = s.calls ++ [{ id := s.nextCallId, peer := pid,
                         metaTimestamp := none,
                         sentStream := s.localStream, closed := false }]) ∧
    (∀ (s : AppState) (cid : Nat) (rs : MediaStream),
       (onStream s cid rs).statusText = "Connected") := by
  refine ⟨?_, ?_, ?_, ?_, rfl, ?_, ?_⟩
  · intro s cid ls tr hcur hls hhead
    simp [callUpdatePhase, hcur, hls, hhead]
  · intro s cid
    exact ⟨by simp [fireReplacePromise, eraseTask, showNote],
           by simp [fireReplacePromise, eraseTask, showNote]⟩
  · intro s cid cid2 c2 hcur hget
    have hget2 : s.calls.find? (fun c => c.id = cid2) = some c2 := hget
    constructor
    · simp [fireReplacePromise, eraseTask, replaceCallWithNewStream, getCall,
        hcur, hget2]
    · simp [fireReplacePromise, eraseTask, replaceCallWithNewStream, getCall,
        hcur, hget2]
  · intro s cid c sup se hcur hget hcase
    have hget2 : s.calls.find? (fun c0 => c0.id = cid) = some c := hget
    rcases hcase with hsup | hse
    · subst hsup
      constructor <;>
        simp [callUpdatePhase, replaceCallWithNewStream, getCall, hcur, hget2]
    · subst hse
      cases sup <;> constructor <;>
        simp [callUpdatePhase, replaceCallWithNewStream, getCall, hcur, hget2]
  · intro s pid
    exact ⟨by simp [fireReplaceRedial, eraseTask, handleCallStream],
           by simp [fireReplaceRedial, eraseTask, handleCallStream]⟩
  · intro s cid rs
    simp [onStream, showNote]

/-- C7 witness scenario: an outbound dial from the ready state. -/
def c7State : AppState := connectToPeer readyState "remoteseven" 5 true

/-- C7 witness scenario: the call object created by that dial. -/
def c7Call : CallObj :=
  { id := 0, peer := "remoteseven", metaTimestamp := some 5,
    sentStream := some { audioTracks := [true], videoTracks := [true] },
    closed := false }

/-- C7 witness: with getSenders unsupported, the fallback closes the
current call and schedules one re-dial to the same remote. -/
theorem source_switch_preserves_handle_witness :
    c7State.currentCall = some 0 ∧
    getCall c7State 0 = some c7Call ∧
    (callUpdatePhase c7State false false).tasks
      = c7State.tasks
          ++ [(SchedTask.replaceRedial c7Call.peer, REPLACE_REDIAL_DELAY_MS)] :=
  ⟨by decide, by decide,
    (source_switch_preserves_handle.2.2.2.1 c7State 0 c7Call false false
      (by decide) (by decide) (Or.inl rfl)).2⟩

/-- C9: the isScreenSharing flag after the call-update phase of
toggleScreenShare, per path: on the in-place replacement path (current
call, getSenders supported, video sender and new local video track
present) the function returns before the flip, so the flag is unchanged;
on every other non-throwing path (no current call, getSenders
unsupported, no video sender, no new video track, or no local stream)
the flag is flipped. -/
theorem screenshare_flag_per_path :
    (∀ (s : AppState) (cid : Nat) (ls : MediaStream) (tr : Bool),
       s.currentCall = some cid → s.localStream = some ls →
       ls.videoTracks.head? = some tr →
       (callUpdatePhase s true true).isScreenSharing = s.isScreenSharing) ∧
    (∀ (s : AppState) (sup se : Bool), s.currentCall = none →
       (callUpdatePhase s sup se).isScreenSharing = !s.isScreenSharing) ∧
    (∀ (s : AppState) (cid : Nat) (se : Bool), s.currentCall = some cid →
       (callUpdatePhase s false se).isScreenSharing = !s.isScreenSharing) ∧
    (∀ (s : AppState) (cid : Nat), s.currentCall = some cid →
       (callUpdatePhase s true false).isScreenSharing = !s.isScreenSharing) ∧
    (∀ (s : AppState) (cid : Nat) (ls : MediaStream),
       s.currentCall = some cid → s.localStream = some ls →
       ls.videoTracks.head? = none →
       (callUpdatePhase s true true).isScreenSharing = !s.isScreenSharing) ∧
    (∀ (s : AppState) (cid : Nat), s.currentCall = some cid →
       s.localStream = none →
       (callUpdatePhase s true true).isScreenSharing = !s.isScreenSharing) := by
  refine ⟨?_, ?_, ?_, ?_, ?_, ?_⟩
  · intro s cid ls tr hcur hls hhead
    simp [callUpdatePhase, hcur, hls, hhead]
  · intro s sup se hcur
    simp [callUpdatePhase, hcur]
  · intro s cid se hcur
    simp [callUpdatePhase, replaceCallWithNewStream, hcur]
  · intro s cid hcur
    simp [callUpdatePhase, replaceCallWithNewStream, hcur]
  · intro s cid ls hcur hls hhead
    simp [callUpdatePhase, replaceCallWithNewStream, hcur, hls, hhead]
  · intro s cid hcur hls
    simp [callUpdatePhase, showNote, hcur, hls]

/-- C9 witness scenario: an outbound dial from the ready state, with a
video track in the local stream. -/
def c9State : AppState := connectToPeer readyState "remotenine" 5 true

/-- C9 witness: on the in-place path the flag is unchanged. -/
theorem screenshare_flag_per_path_witness :
    c9State.currentCall = some 0 ∧
    c9State.localStream
      = some { audioTracks := [true], videoTracks := [true] } ∧
    (callUpdatePhase c9State true true).isScreenSharing
      = c9State.isScreenSharing :=
  ⟨by decide, by decide,
    screenshare_flag_per_path.1 c9State 0
      { audioTracks := [true], videoTracks := [true] } true
      (by decide) (by decide) rfl⟩

/-- C8 (amended): toggling audio or video twice always returns the
isAudioMuted or isVideoOff flag to its original value, and leaves the
first track enabled flag equal to the negation of that flag — hence
equal to its original value exactly when flag and track were in sync
before the toggles; toggling with a local stream present but no track of
the relevant kind only appends the no-track error notification, changing
no flag and no track. -/
theorem double_toggle_amended :
    (∀ (s : AppState) (ls : MediaStream) (e : Bool) (rest : List Bool),
       s.localStream = some ls → ls.audioTracks = e :: rest →
       (toggleAudio (toggleAudio s)).isAudioMuted = s.isAudioMuted ∧
       (toggleAudio (toggleAudio s)).localStream
         = some { ls with audioTracks := (!s.isAudioMuted) :: rest }) ∧
    (∀ (s : AppState) (ls : MediaStream) (e : Bool) (rest : List Bool),
       s.localStream = some ls → ls.videoTracks = e :: rest →
       (toggleVideo (toggleVideo s)).isVideoOff = s.isVideoOff ∧
       (toggleVideo (toggleVideo s)).localStream
         = some { ls with videoTracks := (!s.isVideoOff) :: rest }) ∧
    (∀ (s : AppState) (ls : MediaStream), s.localStream = some ls →
       ls.audioTracks = [] →
       toggleAudio s = showNote s "No audio track found" "error") ∧
    (∀ (s : AppState) (ls : MediaStream), s.localStream = some ls →
       ls.videoTracks = [] →
       toggleVideo s = showNote s "No video track found" "error") := by
  refine ⟨?_, ?_, ?_, ?_⟩
  · intro s ls e rest h1 h2
    constructor <;> simp [toggleAudio, showNote, h1, h2]
  · intro s ls e rest h1 h2
    constructor <;> simp [toggleVideo, showNote, h1, h2]
  · intro s ls h1 h2
    simp [toggleAudio, h1, h2]
  · intro s ls h1 h2
    simp [toggleVideo, h1, h2]

/-- C8 witness: a double audio toggle from the ready state restores both
the flag and the (in-sync) track. -/
theorem double_toggle_amended_witness :
    readyState.localStream
      = some { audioTracks := [true], videoTracks := [true] } ∧
    (toggleAudio (toggleAudio readyState)).isAudioMuted
      = readyState.isAudioMuted :=
  ⟨rfl,
    (double_toggle_amended.1 readyState
      { audioTracks := [true], videoTracks := [true] } true [] rfl rfl).1⟩

/-- C10 (amended): the connectivity check runs with period 10000 ms;
while the browser is online, an absent, disconnected or identity-less
registration is destroyed and recreated (generation bump, identity
cleared, disconnected flag cleared) regardless of the reconnect counter,
which is left untouched; a healthy registration leaves the state fully
unchanged; while offline the check only reports and does not
reinitialize. -/
theorem connectivity_check_amended :
    CONNECTIVITY_CHECK_PERIOD_MS = 10000 ∧
    (∀ s : AppState, s.navigatorOnLine = true →
       (s.peerExists = false ∨ s.peerDisconnected = true ∨ s.peerId = none) →
       checkConnectivity s = (initPeer s, false) ∧
       (initPeer s).peerGen = s.peerGen + 1 ∧
       (initPeer s).peerId = none ∧
       (initPeer s).peerDisconnected = false ∧
       (initPeer s).reconnectAttempts = s.reconnectAttempts) ∧
    (∀ s : AppState, s.navigatorOnLine = true → s.peerExists = true →
       s.peerDisconnected = false → s.peerId.isSome = true →
       checkConnectivity s = (s, true)) := by
  refine ⟨rfl, ?_, ?_⟩
  · intro s hon hbad
    have hc : (s.peerExists && !s.peerDisconnected && s.peerId.isSome) = false := by
      rcases hbad with h | h | h <;> simp [h]
    exact ⟨by simp [checkConnectivity, hon, hc], rfl, rfl, rfl, rfl⟩
  · intro s hon hpe hpd hpid
    simp [checkConnectivity, hon, hpe, hpd, hpid]

/-- C10 witness scenario: online with a disconnected registration. -/
def c10Online : AppState := { readyState with peerDisconnected := true }

/-- C10 witness: online and disconnected, the check recreates the
registration with a generation bump. -/
theorem connectivity_check_amended_witness :
    c10Online.navigatorOnLine = true ∧
    c10Online.peerDisconnected = true ∧
    checkConnectivity c10Online = (initPeer c10Online, false) ∧
    (initPeer c10Online).peerGen = c10Online.peerGen + 1 :=
  ⟨rfl, rfl,
    (connectivity_check_amended.2.1 c10Online rfl (Or.inr (Or.inl rfl))).1,
    (connectivity_check_amended.2.1 c10Online rfl (Or.inr (Or.inl rfl))).2.1⟩

/-
Concrete scenario states, named per claim.
-/

/-- C2 scenario: an outbound dial from the ready state. -/
def c2Dialed : AppState := connectToPeer readyState "abc123" 5 true

/-- C2 scenario: the 30 s connection timeout has fired with no remote
stream, closing the session. -/
def c2TimedOut : AppState := connTimeoutFire c2Dialed 0

/-- C3 scenario: an outbound dial from the ready state. -/
def c3Dialed : AppState := connectToPeer readyState "remote3" 5 true

/-- C3 scenario: health-check tick at t = 20000 with no remote stream and
failed ICE: the stall path closes the call and schedules the 2 s re-dial. -/
def c3Stalled : AppState := intervalTick c3Dialed 0 20000 true true

/-- C3 scenario: the user presses End Call between the stall detection
and the delayed re-dial. -/
def c3UserHangup : AppState := endCall c3Stalled

/-- C3 scenario: the delayed stall re-dial fires after the manual close. -/
def c3LateRedial : AppState := fireStallRedial c3UserHangup "remote3" true

/-- C8 counterexample state: the local video track is enabled while
isVideoOff is already true, as happens when screen sharing replaces the
local stream with a fresh (enabled) screen track while the flag is set. -/
def c8Start : AppState := { readyState with isVideoOff := true }

/-- C10 counterexample state: the browser is offline and the signaling
registration is disconnected. -/
def c10Offline : AppState :=
  { readyState with navigatorOnLine := false, peerDisconnected := true }

/-- C2: the spec requires a remote-stream event delivered after the
session reached Closed to be discarded.  The stream handler of the code
(lines 296 to 342) has no closed-session guard: evaluated on the state
reached after the connection timeout has closed the session, it attaches
the remote stream to remoteVideo.srcObject and reports Connected, so the
session state is not left unchanged.  The current-call reference does
stay cleared. -/
theorem stream_after_close_not_discarded :
    c2TimedOut.currentCall = none ∧
    (getCall c2TimedOut 0).map CallObj.closed = some true ∧
    c2TimedOut.remoteVideoSrc = none ∧
    c2TimedOut.statusText = "Connection timed out" ∧
    (onStream c2TimedOut 0 { audioTracks := [true], videoTracks := [true] }).remoteVideoSrc
      = some { audioTracks := [true], videoTracks := [true] } ∧
    (onStream c2TimedOut 0 { audioTracks := [true], videoTracks := [true] }).statusText
      = "Connected" ∧
    (onStream c2TimedOut 0 { audioTracks := [true], videoTracks := [true] }).currentCall
      = none := by decide

/-- C3: the spec requires the delayed stall re-dial to be discarded and
itself closed when the user ended the call in between.  The re-dial
callback of the code (lines 388 to 396) only checks that the peer is
registered, not whether the session was closed meanwhile: after the user
has pressed End Call, the late re-dial still installs a fresh open call
as the current call. -/
theorem stall_redial_ignores_manual_close :
    c3Stalled.tasks = [(SchedTask.stallRedial "remote3", STALL_REDIAL_DELAY_MS)] ∧
    c3UserHangup.currentCall = none ∧
    c3LateRedial.currentCall = some 1 ∧
    (getCall c3LateRedial 1).map CallObj.closed = some false := by decide

/-- C8 counterexample: with the local video track enabled while isVideoOff
is true, toggling video twice returns isVideoOff to true but leaves the
track enabled flag at false, not at its original value true. -/
theorem double_toggle_counterexample :
    c8Start.isVideoOff = true ∧
    c8Start.localStream = some { audioTracks := [true], videoTracks := [true] } ∧
    (toggleVideo (toggleVideo c8Start)).isVideoOff = true ∧
    (toggleVideo (toggleVideo c8Start)).localStream
      = some { audioTracks := [true], videoTracks := [false] } := by decide

/-- C10 counterexample: with the browser offline, a disconnected
registration is not destroyed and recreated by checkConnectivity (lines
595 to 600 return before reinitializing): the peer generation, identity
and disconnected flag are all left as they were. -/
theorem connectivity_check_counterexample :
    c10Offline.peerDisconnected = true ∧
    (checkConnectivity c10Offline).1.peerGen = c10Offline.peerGen ∧
    (checkConnectivity c10Offline).1.peerId = c10Offline.peerId ∧
    (checkConnectivity c10Offline).1.peerDisconnected = true := by decide

end VideoCall
